import Mathlib

/-!
Verification development for the wav2ulaw repository.

The repository's visible source is two Python modules, `src/test.py` and
`src/play_ulaw.py`, which orchestrate an external transcoder executable
(`./wav2ulaw`).  The definitions below are a shallow embedding of that
orchestration code: pure data transformations become Lean functions, and
the effectful control flow (temporary files, subprocess runs, exception
propagation) becomes explicit environment-passing over a small outcome
type.  The companding codec itself lives in the external executable and is
modelled from the specification where a claim needs it.
-/

namespace Wav2Ulaw

/-! ## Anti-aliasing filter type constants (src/test.py, lines 9-12) -/

/-- Simple low-pass filter. -/
def AA_SIMPLE : ℕ := 0

/-- Butterworth filter (flattest frequency response). -/
def AA_BUTTERWORTH : ℕ := 1

/-- Bessel filter (best signal shape preservation). -/
def AA_BESSEL : ℕ := 2

/-- Chebyshev Type I filter (steepest roll-off). -/
def AA_CHEBYSHEV : ℕ := 3

/-! ## Parameter set of `wav_to_ulaw` (src/test.py, lines 61-66)

Field names follow the Python keyword arguments; the two `*_ratio`
arguments carry a `_v` suffix in the embedding. -/

/-- The full keyword-parameter set accepted by `wav_to_ulaw`. -/
structure WavParams where
  input_sample_rate : ℕ
  force_mono : Bool
  low_pass : ℚ
  high_pass : ℚ
  normalize : ℚ
  compression_ratio_v : ℚ
  compression_threshold : ℚ
  window_size : ℕ
  anti_aliasing_ratio_v : ℚ
  anti_aliasing_type : ℕ
  filter_order : ℕ
  chebyshev_ripple : ℚ
deriving DecidableEq

/-- The default keyword-argument values of the `wav_to_ulaw` function
itself (src/test.py, lines 61-66): `input_sample_rate=0, force_mono=True,
low_pass=3400, high_pass=200, normalize=0.95, compression_ratio=1.5,
compression_threshold=0.5, window_size=64, anti_aliasing_ratio=0.95,
anti_aliasing_type=AA_SIMPLE, filter_order=2, chebyshev_ripple=0.1`. -/
def wav_to_ulaw_defaults : WavParams :=
  ⟨0, true, 3400, 200, 0.95, 1.5, 0.5, 64, 0.95, AA_SIMPLE, 2, 0.1⟩

/-- The module-level `DEFAULT_CONFIG` dict (src/test.py, lines 33-46):
`input_sample_rate=0, force_mono=True, low_pass=3400, high_pass=200,
normalize=0.95, compression_ratio=1.5, compression_threshold=0.5,
window_size=12, anti_aliasing_ratio=0.95,
anti_aliasing_type=AA_BUTTERWORTH, filter_order=4, chebyshev_ripple=0.1`. -/
def DEFAULT_CONFIG : WavParams :=
  ⟨0, true, 3400, 200, 0.95, 1.5, 0.5, 12, 0.95, AA_BUTTERWORTH, 4, 0.1⟩

/-! ## The transcoder command line (src/test.py, lines 136-155) -/

/-- The command-line flags `wav_to_ulaw` passes to the transcoder
subprocess; each constructor stands for one literal flag string. -/
inductive Flag where
  | input | output | mode | sample_rate | low_pass | high_pass
  | normalize_level | compress_r | compress_threshold | window_size
  | aa_r | aa_type | filter_order | cheb_ripple
deriving DecidableEq

/-- The literal flag text each `Flag` stands for in the Python list. -/
def Flag.text : Flag → String
  | .input => "--input"
  | .output => "--output"
  | .mode => "--mode"
  | .sample_rate => "--sample-rate"
  | .low_pass => "--low-pass"
  | .high_pass => "--high-pass"
  | .normalize_level => "--normalize"
  | .compress_r => "--compress-ratio"
  | .compress_threshold => "--compress-threshold"
  | .window_size => "--window-size"
  | .aa_r => "--anti-aliasing-ratio"
  | .aa_type => "--anti-aliasing-type"
  | .filter_order => "--filter-order"
  | .cheb_ripple => "--chebyshev-ripple"

/-- A value placed after a flag in the command list.  The Python code
applies `str(...)` to each; the embedding keeps the original datum tagged
by its type. -/
inductive ArgVal where
  | str (s : String)
  | nat (n : ℕ)
  | rat (q : ℚ)
deriving DecidableEq

/-- The sample rate actually passed to the subprocess (src/test.py,
lines 117-119): when the caller supplies `0`, the rate detected by
`get_wav_info` replaces it; otherwise the caller's value stands. -/
def effective_sample_rate (p : WavParams) (detected : ℕ) : ℕ :=
  if p.input_sample_rate = 0 then detected else p.input_sample_rate

/-- The flag/value pairs of the `cmd` list built at src/test.py lines
136-155 (after the program name `./wav2ulaw`), with the conditional
`--chebyshev-ripple` extension of lines 153-155. -/
def wav2ulaw_cmd (p : WavParams) (rate : ℕ) (pcmPath ulawPath : String) :
    List (Flag × ArgVal) :=
  [(.input, .str pcmPath),
   (.output, .str ulawPath),
   (.mode, .str "wav2ulaw"),
   (.sample_rate, .nat rate),
   (.low_pass, .rat p.low_pass),
   (.high_pass, .rat p.high_pass),
   (.normalize_level, .rat p.normalize),
   (.compress_r, .rat p.compression_ratio_v),
   (.compress_threshold, .rat p.compression_threshold),
   (.window_size, .nat p.window_size),
   (.aa_r, .rat p.anti_aliasing_ratio_v),
   (.aa_type, .nat p.anti_aliasing_type),
   (.filter_order, .nat p.filter_order)]
  ++ (if p.anti_aliasing_type = AA_CHEBYSHEV
      then [(.cheb_ripple, .rat p.chebyshev_ripple)] else [])

/-- First value paired with a flag in a command list. -/
def argValue (f : Flag) : List (Flag × ArgVal) → Option ArgVal
  | [] => none
  | (g, v) :: rest => if g = f then some v else argValue f rest

/-! ## WAV info (src/test.py, lines 14-30)

`get_wav_info` writes the bytes to a temp file, calls `sf.info` on it and
returns `(info.samplerate, info.channels, info.subtype)`.  The soundfile
`info` record is embedded as a structure; its `subtype` field is the
library's subtype string, e.g. `"PCM_16"`, not a bit count. -/

/-- The fields of a soundfile `info` object that `get_wav_info` reads. -/
structure SFInfo where
  samplerate : ℕ
  channels : ℕ
  subtype : String
deriving DecidableEq

/-- `get_wav_info` (src/test.py lines 14-30): returns the triple
`(info.samplerate, info.channels, info.subtype)` of the input's
soundfile info. -/
def get_wav_info (info : SFInfo) : ℕ × ℕ × String :=
  (info.samplerate, info.channels, info.subtype)

/-! ## Mono downmix (src/test.py, lines 124-126)

`sf.read` yields a 1-D array for single-channel audio and a 2-D
frames-by-channels array otherwise; `data.mean(axis=1)` averages each
frame over its channels. -/

/-- The sample data read by `sf.read`: 1-D for mono input, 2-D
(a list of per-frame channel rows) for multi-channel input. -/
inductive AudioData where
  | mono (samples : List ℚ)
  | multi (frames : List (List ℚ))
deriving DecidableEq

/-- The downmix step (src/test.py lines 124-126): when `force_mono` holds
and the array is 2-D, replace each frame by `mean(axis=1)`, the frame's
channel sum divided by the number of channels; otherwise pass the data
through unchanged. -/
def force_mono_downmix (force : Bool) (d : AudioData) : AudioData :=
  match force, d with
  | true, .multi frames =>
      .mono (frames.map (fun fr => fr.sum / (fr.length : ℚ)))
  | _, d => d

/-! ## Re-quantization to int16 (src/test.py, lines 128-130)

`data = data * 32767; data = data.astype('int16')`.  NumPy's cast of a
float to `int16` truncates toward zero and then keeps the low 16 bits
(two's-complement wrap-around); it does not saturate. -/

/-- Truncation toward zero, the rounding of a NumPy float-to-int cast. -/
def truncToZero (q : ℚ) : ℤ := if 0 ≤ q then ⌊q⌋ else ⌈q⌉

/-- Reduction of an integer to the 16-bit two's-complement range by
wrap-around, the overflow behaviour of NumPy's `astype('int16')`. -/
def wrap_int16 (n : ℤ) : ℤ := (n + 32768) % 65536 - 32768

/-- The re-quantization at src/test.py lines 128-130: scale the float
sample by 32767, truncate toward zero, and wrap into int16. -/
def requantize16 (x : ℚ) : ℤ := wrap_int16 (truncToZero (x * 32767))

/-- The spec's words for the same step: any overflow is hard-clipped
(clamped) to the int16 boundary, never wrapped.  Stated for comparison
with `requantize16`. -/
def requantize16_clamped (x : ℚ) : ℤ :=
  max (-32768) (min 32767 (truncToZero (x * 32767)))

/-! ## Execution model of `wav_to_ulaw` (src/test.py, lines 61-169)

`wav_to_ulaw` creates three temporary files (the input WAV copy, the
normalized PCM WAV, the μ-law output), then runs a try block whose steps
can each raise; the `finally` clause unlinks all three files.  The
external effects are an environment: whether `sf.info`, `sf.read` and
`sf.write` succeed, the transcoder's exit status, and the bytes the
transcoder writes to the output file. -/

/-- The three temporary files created at src/test.py lines 100-113. -/
inductive TmpFile where
  | inputWav | pcmWav | ulawOut
deriving DecidableEq

/-- Exception kinds that can escape `wav_to_ulaw`. -/
inductive PyError where
  | infoError
  | readError
  | writeError
  | calledProcessError (code : ℕ)
deriving DecidableEq

/-- The external effects observed during one `wav_to_ulaw` call. -/
structure WavEnv where
  detected_rate : ℕ
  info_ok : Bool
  read_ok : Bool
  write_ok : Bool
  exit_code : ℕ
  out_bytes : List ℕ
deriving DecidableEq

/-- The observable outcome of one `wav_to_ulaw` call: the returned bytes
or the propagated exception, whether the transcoder subprocess was run
(and its exit status when it was), and which temporary files were
unlinked before returning. -/
structure WavRun where
  result : Except PyError (List ℕ)
  transcoder_ran : Bool
  transcoder_exit : ℕ
  deleted : List TmpFile

/-- `true` when the call propagated an exception. -/
def WavRun.raised (r : WavRun) : Bool :=
  match r.result with
  | .error _ => true
  | .ok _ => false

/-- Control flow of `wav_to_ulaw` (src/test.py lines 100-169): detect the
rate when `input_sample_rate == 0` (line 117-119), read the WAV
(line 122), write the PCM temp (line 133), run the transcoder with
`check=True` (line 157) so a non-zero exit raises `CalledProcessError`,
then read and return the output bytes (lines 160-163); the `finally`
clause (lines 165-169) unlinks all three temporary files on every path. -/
def wav_to_ulaw_run (p : WavParams) (env : WavEnv) : WavRun :=
  let cleanup : List TmpFile := [.inputWav, .pcmWav, .ulawOut]
  if p.input_sample_rate = 0 ∧ env.info_ok = false then
    ⟨.error .infoError, false, 0, cleanup⟩
  else if env.read_ok = false then
    ⟨.error .readError, false, 0, cleanup⟩
  else if env.write_ok = false then
    ⟨.error .writeError, false, 0, cleanup⟩
  else if env.exit_code ≠ 0 then
    ⟨.error (.calledProcessError env.exit_code), true, env.exit_code, cleanup⟩
  else
    ⟨.ok env.out_bytes, true, 0, cleanup⟩

/-! ## Execution model of `play_ulaw` (src/play_ulaw.py, lines 5-45)

`play_ulaw` creates two temporary files, runs the converter and the sox
`play` command inside a try block, catches `FileNotFoundError` by running
`afplay` instead, and unlinks both files in `finally`. -/

/-- Outcome of launching one subprocess: it ran and exited 0, its
executable was absent (`FileNotFoundError`), or it exited non-zero
(`CalledProcessError`, since every call uses `check=True`). -/
inductive RunRes where
  | ok | notFound | failed
deriving DecidableEq

/-- The two temporary files created at src/play_ulaw.py lines 8-15. -/
inductive PlayTmp where
  | ulawFile | wavFile
deriving DecidableEq

/-- The three subprocess commands `play_ulaw` can launch. -/
inductive PlayCmd where
  | converter | soxPlay | afplayCmd
deriving DecidableEq

/-- The external effects observed during one `play_ulaw` call. -/
structure PlayEnv where
  conv : RunRes
  play : RunRes
  afplay : RunRes
deriving DecidableEq

/-- The observable outcome of one `play_ulaw` call: the commands whose
launch was attempted in order, whether an exception propagated, and the
temporary files unlinked before returning. -/
structure PlayRun where
  attempted : List PlayCmd
  raised : Bool
  deleted : List PlayTmp
deriving DecidableEq

/-- Control flow of `play_ulaw` (src/play_ulaw.py lines 17-45): run the
converter, then sox `play`; a `FileNotFoundError` from either launch is
caught and `afplay` is run on the WAV temp file instead (lines 38-41);
any `CalledProcessError` propagates; the `finally` clause (lines 42-45)
unlinks both temporary files on every path. -/
def play_ulaw_run (env : PlayEnv) : PlayRun :=
  let cleanup : List PlayTmp := [.wavFile, .ulawFile]
  match env.conv with
  | .failed => ⟨[.converter], true, cleanup⟩
  | .notFound =>
      ⟨[.converter, .afplayCmd], !(env.afplay == RunRes.ok), cleanup⟩
  | .ok =>
      match env.play with
      | .ok => ⟨[.converter, .soxPlay], false, cleanup⟩
      | .failed => ⟨[.converter, .soxPlay], true, cleanup⟩
      | .notFound =>
          ⟨[.converter, .soxPlay, .afplayCmd], !(env.afplay == RunRes.ok), cleanup⟩

/-! ## The μ-law companding codec

Modelled from the spec: the codec lives in the external `./wav2ulaw`
executable, which is not part of the repository's visible source; the
spec fixes it to the standard G.711 μ-law companding law — sign bit,
3-bit segment (exponent), 4-bit mantissa, bias constant `0x84 = 132`,
segment table of 8 bands, with the customary clamp of the input
magnitude to 32635 before biasing.  Bytes are emitted complemented, so
silence encodes to `0xFF`. -/

/-- Modelled from the spec: the G.711 μ-law segment (exponent) of a
biased magnitude, from the standard 8-band segment table
`0xFF, 0x1FF, 0x3FF, 0x7FF, 0xFFF, 0x1FFF, 0x3FFF, 0x7FFF`. -/
def ulaw_seg (m : ℕ) : ℕ :=
  if m ≤ 255 then 0
  else if m ≤ 511 then 1
  else if m ≤ 1023 then 2
  else if m ≤ 2047 then 3
  else if m ≤ 4095 then 4
  else if m ≤ 8191 then 5
  else if m ≤ 16383 then 6
  else 7

/-- Modelled from the spec: the biased magnitude of a linear sample —
its absolute value clamped to 32635, plus the bias `0x84 = 132`. -/
def ulaw_biased (x : ℤ) : ℕ := min x.natAbs 32635 + 132

/-- Modelled from the spec: G.711 μ-law encode of a linear 16-bit
sample.  The byte packs (complemented) a sign bit, the 3-bit segment of
the biased magnitude, and the 4 mantissa bits below the segment's
leading bit. -/
def ulaw_encode (x : ℤ) : ℕ :=
  255 - ((if x < 0 then 1 else 0) * 128 +
    (ulaw_seg (ulaw_biased x) * 16 +
      ulaw_biased x / 2 ^ (ulaw_seg (ulaw_biased x) + 3) % 16))

/-- Modelled from the spec: G.711 μ-law decode of a byte back to a
linear sample: un-complement, split sign/segment/mantissa, rebuild
`((mantissa * 8 + 132) << segment) - 132` and apply the sign. -/
def ulaw_decode (u : ℕ) : ℤ :=
  let v : ℕ := 255 - u
  let e : ℕ := v / 16 % 8
  let q : ℕ := v % 16
  let t : ℕ := (q * 8 + 132) * 2 ^ e
  if v / 128 = 1 then (132 : ℤ) - (t : ℤ) else (t : ℤ) - 132

/-- The μ-law quantization step at the magnitude segment containing a
sample: segment `e` quantizes biased magnitudes in bins of width
`2 ^ (e + 3)`. -/
def ulaw_step (x : ℤ) : ℕ := 2 ^ (ulaw_seg (ulaw_biased x) + 3)

/-- Toggling the sign bit of a μ-law byte. -/
def ulaw_signFlip (b : ℕ) : ℕ := if 128 ≤ b then b - 128 else b + 128

/-! ## Theorems -/

/-- Claim C1: the command passed to the transcoder subprocess includes
the `--chebyshev-ripple` flag if and only if `anti_aliasing_type` equals
`AA_CHEBYSHEV` (3); hence no ripple parameter is ever supplied for a
non-Chebyshev filter type. -/
theorem wav2ulaw_cmd_chebyshev_ripple_iff (p : WavParams) (rate : ℕ)
    (pcmPath ulawPath : String) :
    (Flag.cheb_ripple ∈ (wav2ulaw_cmd p rate pcmPath ulawPath).map Prod.fst
      ↔ p.anti_aliasing_type = AA_CHEBYSHEV)
    ∧ Flag.text Flag.cheb_ripple = "--chebyshev-ripple" := by
  refine ⟨?_, rfl⟩
  by_cases h : p.anti_aliasing_type = AA_CHEBYSHEV <;>
    simp [wav2ulaw_cmd, h]

/-- Claim C2, counterexample: it is not the case that a conversion with
default parameters uses `low_pass=3400, high_pass=200, normalize=0.95,
compression_ratio=1.5, compression_threshold=0.5, window_size=64,
anti_aliasing_ratio=0.95, anti_aliasing_type=Butterworth,
filter_order=4`: the function's own keyword defaults use the Simple
filter type at order 2, and the `DEFAULT_CONFIG` dict uses window size
12, so the claimed combination matches neither default set. -/
theorem default_params_claim_false :
    ¬ (wav_to_ulaw_defaults.low_pass = 3400
      ∧ wav_to_ulaw_defaults.high_pass = 200
      ∧ wav_to_ulaw_defaults.normalize = 0.95
      ∧ wav_to_ulaw_defaults.compression_ratio_v = 1.5
      ∧ wav_to_ulaw_defaults.compression_threshold = 0.5
      ∧ wav_to_ulaw_defaults.window_size = 64
      ∧ wav_to_ulaw_defaults.anti_aliasing_ratio_v = 0.95
      ∧ wav_to_ulaw_defaults.anti_aliasing_type = AA_BUTTERWORTH
      ∧ wav_to_ulaw_defaults.filter_order = 4)
    ∧ ¬ (DEFAULT_CONFIG.low_pass = 3400
      ∧ DEFAULT_CONFIG.high_pass = 200
      ∧ DEFAULT_CONFIG.normalize = 0.95
      ∧ DEFAULT_CONFIG.compression_ratio_v = 1.5
      ∧ DEFAULT_CONFIG.compression_threshold = 0.5
      ∧ DEFAULT_CONFIG.window_size = 64
      ∧ DEFAULT_CONFIG.anti_aliasing_ratio_v = 0.95
      ∧ DEFAULT_CONFIG.anti_aliasing_type = AA_BUTTERWORTH
      ∧ DEFAULT_CONFIG.filter_order = 4) := by
  constructor
  · intro h
    exact absurd h.2.2.2.2.2.2.2.1
      (by norm_num [wav_to_ulaw_defaults, AA_SIMPLE, AA_BUTTERWORTH])
  · intro h
    exact absurd h.2.2.2.2.2.1 (by norm_num [DEFAULT_CONFIG])

/-- Claim C2, amended: a conversion invoked with the `wav_to_ulaw`
function's default keyword arguments uses `low_pass=3400,
high_pass=200, normalize=0.95, compression_ratio=1.5,
compression_threshold=0.5, window_size=64, anti_aliasing_ratio=0.95,
anti_aliasing_type=Simple (0), filter_order=2`; the module's
`DEFAULT_CONFIG` dict instead sets `window_size=12`,
`anti_aliasing_type=Butterworth`, `filter_order=4`. -/
theorem wav_to_ulaw_default_values :
    wav_to_ulaw_defaults.low_pass = 3400
    ∧ wav_to_ulaw_defaults.high_pass = 200
    ∧ wav_to_ulaw_defaults.normalize = 0.95
    ∧ wav_to_ulaw_defaults.compression_ratio_v = 1.5
    ∧ wav_to_ulaw_defaults.compression_threshold = 0.5
    ∧ wav_to_ulaw_defaults.window_size = 64
    ∧ wav_to_ulaw_defaults.anti_aliasing_ratio_v = 0.95
    ∧ wav_to_ulaw_defaults.anti_aliasing_type = AA_SIMPLE
    ∧ wav_to_ulaw_defaults.filter_order = 2
    ∧ DEFAULT_CONFIG.window_size = 12
    ∧ DEFAULT_CONFIG.anti_aliasing_type = AA_BUTTERWORTH
    ∧ DEFAULT_CONFIG.filter_order = 4 := by
  refine ⟨rfl, rfl, rfl, rfl, rfl, rfl, rfl, rfl, rfl, rfl, rfl, rfl⟩

/-- Claim C4: `get_wav_info` returns the triple
`(samplerate, channels, subtype)` of the soundfile info; the third
component is the library's subtype string (here `"PCM_16"`), not a bit
count, even though the function's docstring and its caller treat it as
a numeric bit depth. -/
theorem get_wav_info_returns_subtype :
    get_wav_info ⟨44100, 1, "PCM_16"⟩ = (44100, 1, "PCM_16")
    ∧ "PCM_16" ≠ "16" := by
  exact ⟨rfl, by decide⟩

/-- Claim C5: when `force_mono` holds and the input is multi-channel,
every output sample of the downmix is the arithmetic mean of that
frame's values over the `c` channels; with `force_mono` false, or with
single-channel input, the data passes through unchanged. -/
theorem force_mono_downmix_mean (frames : List (List ℚ)) (c : ℕ)
    (hc : ∀ fr ∈ frames, fr.length = c) :
    force_mono_downmix true (.multi frames)
        = .mono (frames.map (fun fr => fr.sum / (c : ℚ)))
    ∧ (∀ d, force_mono_downmix false d = d)
    ∧ (∀ xs, force_mono_downmix true (.mono xs) = .mono xs) := by
  refine ⟨?_, fun d => by cases d <;> rfl, fun xs => rfl⟩
  simp only [force_mono_downmix, AudioData.mono.injEq]
  exact List.map_congr_left fun fr h => by rw [hc fr h]

/-- Witness for C5 at a concrete two-channel buffer. -/
theorem force_mono_downmix_mean_witness :
    force_mono_downmix true (.multi [[(1 : ℚ), 3], [2, 4]])
      = .mono ([[(1 : ℚ), 3], [2, 4]].map (fun fr => fr.sum / ((2 : ℕ) : ℚ))) :=
  (force_mono_downmix_mean [[1, 3], [2, 4]] 2 (by decide)).1

/-- Claim C6: when the sox `play` executable is absent, `play_ulaw`
falls back to `afplay` (and raises nothing if `afplay` succeeds); on
every path it unlinks both temporary files before returning. -/
theorem play_ulaw_fallback_cleanup (env : PlayEnv) :
    (env.conv = RunRes.ok → env.play = RunRes.notFound →
      PlayCmd.afplayCmd ∈ (play_ulaw_run env).attempted
      ∧ (env.afplay = RunRes.ok → (play_ulaw_run env).raised = false))
    ∧ (play_ulaw_run env).deleted = [PlayTmp.wavFile, PlayTmp.ulawFile] := by
  obtain ⟨conv, play, afplay⟩ := env
  cases conv <;> cases play <;> cases afplay <;> decide

/-- Witness for C6 at the environment where the converter succeeds, sox
is absent and `afplay` succeeds. -/
theorem play_ulaw_fallback_cleanup_witness :
    PlayCmd.afplayCmd
        ∈ (play_ulaw_run ⟨RunRes.ok, RunRes.notFound, RunRes.ok⟩).attempted
    ∧ (play_ulaw_run ⟨RunRes.ok, RunRes.notFound, RunRes.ok⟩).raised = false
    ∧ (play_ulaw_run ⟨RunRes.ok, RunRes.notFound, RunRes.ok⟩).deleted
        = [PlayTmp.wavFile, PlayTmp.ulawFile] := by
  have h := play_ulaw_fallback_cleanup ⟨RunRes.ok, RunRes.notFound, RunRes.ok⟩
  exact ⟨(h.1 rfl rfl).1, (h.1 rfl rfl).2 rfl, h.2⟩

/-- Claim C7, counterexample: with readable-WAV failure (`sf.read`
raises) and a transcoder that would exit 0, `wav_to_ulaw` raises even
though the transcoder subprocess never exited with a non-zero status,
so "raises if and only if the subprocess exits non-zero" is false. -/
theorem wav_to_ulaw_raises_without_nonzero_exit :
    ¬ ((wav_to_ulaw_run wav_to_ulaw_defaults
          ⟨8000, true, false, true, 0, []⟩).raised = true
        ↔ ((wav_to_ulaw_run wav_to_ulaw_defaults
          ⟨8000, true, false, true, 0, []⟩).transcoder_ran = true
          ∧ (wav_to_ulaw_run wav_to_ulaw_defaults
          ⟨8000, true, false, true, 0, []⟩).transcoder_exit ≠ 0)) := by
  decide

/-- Claim C7, amended: provided the soundfile info, read and write steps
succeed, `wav_to_ulaw` raises if and only if the transcoder subprocess
exits non-zero; on exit 0 it returns exactly the bytes the subprocess
wrote to the output file; and whenever it raises, no μ-law bytes are
returned to the caller. -/
theorem wav_to_ulaw_exit_contract (p : WavParams) (env : WavEnv)
    (hinfo : env.info_ok = true) (hread : env.read_ok = true)
    (hwrite : env.write_ok = true) :
    ((wav_to_ulaw_run p env).raised = true ↔ env.exit_code ≠ 0)
    ∧ (env.exit_code = 0 →
        (wav_to_ulaw_run p env).result = .ok env.out_bytes)
    ∧ ((wav_to_ulaw_run p env).raised = true →
        ∀ bs, (wav_to_ulaw_run p env).result ≠ .ok bs) := by
  obtain ⟨d, io_ok, ro, wo, ec, ob⟩ := env
  simp only at hinfo hread hwrite
  subst hinfo; subst hread; subst hwrite
  by_cases hec : ec = 0
  · subst hec
    simp [wav_to_ulaw_run, WavRun.raised]
  · simp [wav_to_ulaw_run, WavRun.raised, hec]

/-- Witness for C7 at an environment where every step succeeds and the
transcoder exits 0 after writing two bytes. -/
theorem wav_to_ulaw_exit_contract_witness :
    (wav_to_ulaw_run wav_to_ulaw_defaults
        ⟨8000, true, true, true, 0, [1, 2]⟩).result = .ok [1, 2] :=
  (wav_to_ulaw_exit_contract wav_to_ulaw_defaults
    ⟨8000, true, true, true, 0, [1, 2]⟩ rfl rfl rfl).2.1 rfl

/-- Claim C9: the value passed after `--sample-rate` is the detected
rate when the caller supplies `input_sample_rate = 0`, and the caller's
value unchanged otherwise. -/
theorem wav2ulaw_cmd_sample_rate_selection (p : WavParams) (detected : ℕ)
    (pcmPath ulawPath : String) :
    (p.input_sample_rate = 0 →
      argValue Flag.sample_rate
          (wav2ulaw_cmd p (effective_sample_rate p detected) pcmPath ulawPath)
        = some (ArgVal.nat detected))
    ∧ (p.input_sample_rate ≠ 0 →
      argValue Flag.sample_rate
          (wav2ulaw_cmd p (effective_sample_rate p detected) pcmPath ulawPath)
        = some (ArgVal.nat p.input_sample_rate)) := by
  have base : ∀ r : ℕ,
      argValue Flag.sample_rate (wav2ulaw_cmd p r pcmPath ulawPath)
        = some (ArgVal.nat r) := fun r => rfl
  constructor
  · intro h
    rw [base]
    simp only [effective_sample_rate, if_pos h]
  · intro h
    rw [base]
    simp only [effective_sample_rate, if_neg h]

/-- Witness for C9 in both directions at concrete parameter sets. -/
theorem wav2ulaw_cmd_sample_rate_selection_witness :
    argValue Flag.sample_rate
        (wav2ulaw_cmd wav_to_ulaw_defaults
          (effective_sample_rate wav_to_ulaw_defaults 44100) "p" "u")
      = some (ArgVal.nat 44100)
    ∧ argValue Flag.sample_rate
        (wav2ulaw_cmd { wav_to_ulaw_defaults with input_sample_rate := 16000 }
          (effective_sample_rate
            { wav_to_ulaw_defaults with input_sample_rate := 16000 } 44100) "p" "u")
      = some (ArgVal.nat 16000) :=
  ⟨(wav2ulaw_cmd_sample_rate_selection wav_to_ulaw_defaults 44100 "p" "u").1 rfl,
   (wav2ulaw_cmd_sample_rate_selection
      { wav_to_ulaw_defaults with input_sample_rate := 16000 } 44100 "p" "u").2
    (by decide)⟩

/-- Claim C10: every execution of `wav_to_ulaw`, on every control path
(normal return or propagated exception at any step), unlinks all three
temporary files it created. -/
theorem wav_to_ulaw_deletes_all_temp_files (p : WavParams) (env : WavEnv) :
    (wav_to_ulaw_run p env).deleted
      = [TmpFile.inputWav, TmpFile.pcmWav, TmpFile.ulawOut] := by
  simp only [wav_to_ulaw_run]
  split_ifs <;> rfl

/-- Claim C3, counterexample: at the float sample `2.0`, the code's
re-quantization wraps (`2 * 32767 = 65534` truncates into int16 as
`-2`) while the spec's hard clip would give `32767`. -/
theorem requantize_wraps_not_clamps :
    requantize16 2 = -2 ∧ requantize16_clamped 2 = 32767
    ∧ requantize16 2 ≠ requantize16_clamped 2 := by
  have h1 : truncToZero ((2 : ℚ) * 32767) = 65534 := by
    unfold truncToZero
    rw [if_pos (by norm_num), show ((2 : ℚ) * 32767) = ((65534 : ℤ) : ℚ) by norm_num,
      Int.floor_intCast]
  have h2 : requantize16 2 = -2 := by
    show wrap_int16 (truncToZero ((2 : ℚ) * 32767)) = -2
    rw [h1]
    decide
  have h3 : requantize16_clamped 2 = 32767 := by
    show max (-32768) (min 32767 (truncToZero ((2 : ℚ) * 32767))) = 32767
    rw [h1]
    decide
  exact ⟨h2, h3, by rw [h2, h3]; decide⟩

/-- Claim C3, amended: the re-quantized value always lies within the
representable int16 range, but out-of-range scaled magnitudes get there
by two's-complement wrap-around, not by clamping; samples in `[-1, 1]`
(whose scaled magnitude is representable) are truncated toward zero and
passed through exactly. -/
theorem requantize_range_and_identity (x : ℚ) :
    -32768 ≤ requantize16 x ∧ requantize16 x ≤ 32767
    ∧ (-1 ≤ x → x ≤ 1 → requantize16 x = truncToZero (x * 32767)) := by
  have hb : ∀ t : ℤ,
      -32768 ≤ (t + 32768) % 65536 - 32768
      ∧ (t + 32768) % 65536 - 32768 ≤ 32767 := fun t => by omega
  refine ⟨(hb (truncToZero (x * 32767))).1, (hb (truncToZero (x * 32767))).2, ?_⟩
  intro hx1 hx2
  have hq1 : (-32767 : ℚ) ≤ x * 32767 := by nlinarith
  have hq2 : x * 32767 ≤ 32767 := by nlinarith
  have ht : -32767 ≤ truncToZero (x * 32767)
      ∧ truncToZero (x * 32767) ≤ 32767 := by
    unfold truncToZero
    split_ifs with h
    · constructor
      · have h0 : 0 ≤ ⌊x * 32767⌋ := Int.floor_nonneg.mpr h
        omega
      · have h1 : ((⌊x * 32767⌋ : ℤ) : ℚ) ≤ 32767 :=
          le_trans (Int.floor_le _) hq2
        exact_mod_cast h1
    · constructor
      · have h1 : ((-32767 : ℤ) : ℚ) ≤ ((⌈x * 32767⌉ : ℤ) : ℚ) := by
          push_cast
          exact le_trans hq1 (Int.le_ceil _)
        exact_mod_cast h1
      · have h0 : ⌈x * 32767⌉ ≤ 0 :=
          Int.ceil_le.mpr (by exact_mod_cast le_of_not_le h)
        omega
  show wrap_int16 (truncToZero (x * 32767)) = truncToZero (x * 32767)
  unfold wrap_int16
  omega

/-- The μ-law segment index never exceeds 7. -/
theorem ulaw_seg_le (m : ℕ) : ulaw_seg m ≤ 7 := by
  unfold ulaw_seg
  split_ifs <;> omega

/-- Decoding a byte packed from sign `s`, segment `e` and mantissa `q`
recovers `(q * 8 + 132) * 2 ^ e - 132` with the sign applied. -/
theorem ulaw_decode_byte (s e q : ℕ) (hs : s ≤ 1) (he : e ≤ 7) (hq : q ≤ 15) :
    ulaw_decode (255 - (s * 128 + (e * 16 + q))) =
      if s = 1 then (132 : ℤ) - ((q * 8 + 132) * 2 ^ e : ℕ)
      else ((q * 8 + 132) * 2 ^ e : ℕ) - 132 := by
  have h0 : 255 - (255 - (s * 128 + (e * 16 + q))) = s * 128 + (e * 16 + q) := by
    omega
  simp only [ulaw_decode]
  rw [h0]
  have h1 : (s * 128 + (e * 16 + q)) / 16 % 8 = e := by omega
  have h2 : (s * 128 + (e * 16 + q)) % 16 = q := by omega
  have h3 : (s * 128 + (e * 16 + q)) / 128 = s := by omega
  rw [h1, h2, h3]

/-- The reconstructed biased magnitude of segment `e` sits within half a
quantization bin (`2 ^ (e + 2)`) of the true biased magnitude. -/
theorem ulaw_mag_bound (m : ℕ) (h1 : 132 ≤ m) (h2 : m ≤ 32767) :
    m ≤ (m / 2 ^ (ulaw_seg m + 3) % 16 * 8 + 132) * 2 ^ ulaw_seg m
        + 2 ^ (ulaw_seg m + 2)
    ∧ (m / 2 ^ (ulaw_seg m + 3) % 16 * 8 + 132) * 2 ^ ulaw_seg m
        ≤ m + 2 ^ (ulaw_seg m + 2) := by
  unfold ulaw_seg
  split_ifs <;> norm_num <;> omega

/-- Arithmetic core of the sign symmetry: complement packing sends the
two sign variants of a magnitude nibble pair to sign-flipped bytes. -/
theorem ulaw_flip_arith (w : ℕ) (hw : w ≤ 127) :
    255 - (0 * 128 + w) = ulaw_signFlip (255 - (1 * 128 + w))
    ∧ 255 - (1 * 128 + w) = ulaw_signFlip (255 - (0 * 128 + w)) := by
  unfold ulaw_signFlip
  refine ⟨?_, ?_⟩ <;> split_ifs <;> omega

/-- Claim C8: for every valid 16-bit PCM sample `x`, `decode (encode x)`
differs from `x` by at most one μ-law quantization step at the magnitude
segment containing `x`, and `encode` is even-symmetric in sign: away
from the zero-crossing edge, negating the sample only toggles the sign
bit of the encoded byte. -/
theorem ulaw_roundtrip_and_sign (x : ℤ) (hlo : -32768 ≤ x) (hhi : x ≤ 32767) :
    (ulaw_decode (ulaw_encode x) - x).natAbs ≤ ulaw_step x
    ∧ (x ≠ 0 → ulaw_encode (-x) = ulaw_signFlip (ulaw_encode x)) := by
  constructor
  · have hq15 : ulaw_biased x / 2 ^ (ulaw_seg (ulaw_biased x) + 3) % 16 ≤ 15 :=
      Nat.le_of_lt_succ (Nat.mod_lt _ (by norm_num))
    have hs1 : (if x < 0 then 1 else 0) ≤ 1 := by split <;> norm_num
    have keyE : ulaw_decode (ulaw_encode x) =
        if (if x < 0 then 1 else 0) = 1 then
          (132 : ℤ) - ((ulaw_biased x / 2 ^ (ulaw_seg (ulaw_biased x) + 3) % 16
            * 8 + 132) * 2 ^ ulaw_seg (ulaw_biased x) : ℕ)
        else ((ulaw_biased x / 2 ^ (ulaw_seg (ulaw_biased x) + 3) % 16
            * 8 + 132) * 2 ^ ulaw_seg (ulaw_biased x) : ℕ) - 132 :=
      ulaw_decode_byte (if x < 0 then 1 else 0) (ulaw_seg (ulaw_biased x))
        (ulaw_biased x / 2 ^ (ulaw_seg (ulaw_biased x) + 3) % 16)
        hs1 (ulaw_seg_le _) hq15
    have hnx : x.natAbs ≤ 32768 := by omega
    simp only [ulaw_step]
    by_cases hcl : x.natAbs ≤ 32635
    · -- magnitude below the clamp threshold
      have hM : ulaw_biased x = x.natAbs + 132 := by unfold ulaw_biased; omega
      have hb := ulaw_mag_bound (ulaw_biased x) (by omega) (by omega)
      have hPS : (2 : ℕ) ^ (ulaw_seg (ulaw_biased x) + 3)
          = 2 * 2 ^ (ulaw_seg (ulaw_biased x) + 2) := by ring
      rw [keyE]
      obtain ⟨T, hT⟩ : ∃ T,
          (ulaw_biased x / 2 ^ (ulaw_seg (ulaw_biased x) + 3) % 16 * 8 + 132)
            * 2 ^ ulaw_seg (ulaw_biased x) = T := ⟨_, rfl⟩
      rw [hT] at hb ⊢
      obtain ⟨M, hM2⟩ : ∃ M, ulaw_biased x = M := ⟨_, rfl⟩
      rw [hM2] at hb hM hPS ⊢
      obtain ⟨P, hP⟩ : ∃ P, (2 : ℕ) ^ (ulaw_seg M + 2) = P := ⟨_, rfl⟩
      rw [hP] at hb hPS
      obtain ⟨S, hS⟩ : ∃ S, (2 : ℕ) ^ (ulaw_seg M + 3) = S := ⟨_, rfl⟩
      rw [hS] at hPS ⊢
      by_cases hneg : x < 0
      · rw [if_pos hneg, if_pos rfl]
        omega
      · rw [if_neg hneg, if_neg (by omega)]
        omega
    · -- magnitude clamped to 32635
      have hM : ulaw_biased x = 32767 := by unfold ulaw_biased; omega
      rw [hM] at keyE ⊢
      have hseg : ulaw_seg 32767 = 7 := by decide
      rw [hseg] at keyE ⊢
      norm_num at keyE ⊢
      rw [keyE]
      by_cases hneg : x < 0
      · rw [if_pos hneg]
        omega
      · rw [if_neg hneg]
        omega
  · intro hx0
    have hbias : ulaw_biased (-x) = ulaw_biased x := by
      unfold ulaw_biased
      rw [Int.natAbs_neg]
    have hw : ulaw_seg (ulaw_biased x) * 16
        + ulaw_biased x / 2 ^ (ulaw_seg (ulaw_biased x) + 3) % 16 ≤ 127 := by
      have h1 := ulaw_seg_le (ulaw_biased x)
      have h2 : ulaw_biased x / 2 ^ (ulaw_seg (ulaw_biased x) + 3) % 16 < 16 :=
        Nat.mod_lt _ (by norm_num)
      omega
    rcases lt_trichotomy x 0 with hneg | hzero | hpos
    · have h1 : ¬ (-x < 0) := by omega
      unfold ulaw_encode
      rw [hbias, if_neg h1, if_pos hneg]
      exact (ulaw_flip_arith _ hw).1
    · exact absurd hzero hx0
    · have h1 : -x < 0 := by omega
      have h2 : ¬ x < 0 := by omega
      unfold ulaw_encode
      rw [hbias, if_pos h1, if_neg h2]
      exact (ulaw_flip_arith _ hw).2

/-- Witness for C8 at the sample `1000`. -/
theorem ulaw_roundtrip_and_sign_witness :
    (ulaw_decode (ulaw_encode 1000) - 1000).natAbs ≤ ulaw_step 1000
    ∧ ulaw_encode (-1000) = ulaw_signFlip (ulaw_encode 1000) :=
  ⟨(ulaw_roundtrip_and_sign 1000 (by norm_num) (by norm_num)).1,
   (ulaw_roundtrip_and_sign 1000 (by norm_num) (by norm_num)).2 (by norm_num)⟩

/-- Witness for C3's amended theorem at the in-range sample `1/2`. -/
theorem requantize_range_witness :
    -32768 ≤ requantize16 (1 / 2) ∧ requantize16 (1 / 2) ≤ 32767
    ∧ requantize16 (1 / 2) = truncToZero ((1 / 2) * 32767) :=
  ⟨(requantize_range_and_identity (1 / 2)).1,
   (requantize_range_and_identity (1 / 2)).2.1,
   (requantize_range_and_identity (1 / 2)).2.2 (by norm_num) (by norm_num)⟩

end Wav2Ulaw
